import Mathlib

/-!
Verification of the practice-session Vuex store
(`src/packages/app/src/store/practice/practice.ts`) of Material-Math.

The store's mutations become pure functions `PracticeState → … → PracticeState`
and the actions become functions on a `Sys` wrapper that additionally tracks
the set of live `setInterval` handles (the browser's timer table), the next
handle the browser would allocate, and a ghost counter of how many times the
`finishPracticeSession` action has run.  JavaScript numbers that can go
negative in the code (`practiceTimeLeft` after repeated decrements) are
embedded as `Int`; interval handles are `Nat` (browsers allocate positive
integer ids, with 0 never a valid handle).  The external challenge generator
and the mathjs answer evaluator are oracles passed in as parameters; the
evaluator may fail, which is an `Except.error` (an uncaught JS exception).
The 350 ms one-shot feedback-clear `setTimeout` in `onCorrect`/`onIncorrect`
is not modelled: no property below concerns it, and it is not an interval.
-/

namespace MaterialMath

/-- Modelled from the spec: `Difficulty` is imported from
`engine/models/math_question`, which is not part of the repository slice;
the spec describes it as an ordered enum Easy/Normal/Hard. -/
inductive Difficulty
  | Easy
  | Normal
  | Hard
deriving DecidableEq, Repr

/-- Modelled from the spec: `Operator` is imported from
`engine/math_questions/expression/models` (not in the slice); the spec calls
it the set of allowed operator symbols.  The store's default state names
`Addition` and `Subtraction`. -/
inductive Operator
  | Addition
  | Subtraction
  | Multiplication
  | Division
deriving DecidableEq, Repr

/-- Modelled from the spec: `ChallengeType` (not in the slice); an opaque
challenge-kind enum, only stored and never inspected by the store. -/
inductive ChallengeType
  | Expression
deriving DecidableEq, Repr

/-- Modelled from the spec: `PracticeMode` (not in the slice); the two
termination modes.  `TIME` is the constructor the store compares against;
`QUESTIONS` is the spec's ByQuestionCount mode. -/
inductive PracticeMode
  | TIME
  | QUESTIONS
deriving DecidableEq, Repr

/-- Modelled from the spec: `ChallengeModel` (not in the slice); the store
reads its `latex` field (getter) and its infix-expression field
(`checkAnswer`).  The infix field is renamed `canonicalForm` because `infix`
is a Lean keyword. -/
structure ChallengeModel where
  latex : String
  canonicalForm : String
deriving DecidableEq, Repr

/-- `PracticeOptions` as exported by practice.ts. -/
structure PracticeOptions where
  difficulty : Difficulty
  operators : List Operator
  challengeTypes : List ChallengeType
deriving DecidableEq, Repr

/-- `PracticeState` as declared in practice.ts.  `practiceTimerId = 0` is the
initial "no timer" value (a browser never allocates handle 0). -/
structure PracticeState where
  question : ChallengeModel
  difficulty : Difficulty
  operators : List Operator
  challengeTypes : List ChallengeType
  answer : String
  streak : Int
  showingFeedback : Bool
  practiceMode : PracticeMode
  practiceQuestionCount : Int
  practiceTime : Int
  practiceTimeLeft : Int
  practiceCorrectQuestionCount : Int
  practiceTimerId : Nat
deriving DecidableEq, Repr

/-! ### Mutations (the `MutationTree` of practice.ts) -/

/-- Mutation `setQuestion` (the `Object.assign({}, question)` copy is
value-equal to the question itself). -/
def PracticeState.setQuestion (st : PracticeState) (q : ChallengeModel) :
    PracticeState :=
  { st with question := q }

/-- Mutation `setAnswer`. -/
def PracticeState.setAnswer (st : PracticeState) (a : String) : PracticeState :=
  { st with answer := a }

/-- Mutation `setStreak`. -/
def PracticeState.setStreak (st : PracticeState) (n : Int) : PracticeState :=
  { st with streak := n }

/-- Mutation `setPracticeOptions`: stores operators, challengeTypes and
difficulty, then sets `practiceTimeLeft := practiceTime`. -/
def PracticeState.setPracticeOptions (st : PracticeState)
    (options : PracticeOptions) : PracticeState :=
  { st with operators := options.operators,
            challengeTypes := options.challengeTypes,
            difficulty := options.difficulty,
            practiceTimeLeft := st.practiceTime }

/-- Mutation `setShowingFeedback`. -/
def PracticeState.setShowingFeedback (st : PracticeState) (b : Bool) :
    PracticeState :=
  { st with showingFeedback := b }

/-- Mutation `setOperatorEnabled`: `state.operators.push(operator)` —
an unconditional append, with no duplicate guard. -/
def PracticeState.setOperatorEnabled (st : PracticeState) (op : Operator) :
    PracticeState :=
  { st with operators := st.operators ++ [op] }

/-- Mutation `setOperatorDisabled`:
`state.operators = state.operators.filter(op => op !== operator)` —
removes every occurrence. -/
def PracticeState.setOperatorDisabled (st : PracticeState) (op : Operator) :
    PracticeState :=
  { st with operators := st.operators.filter (fun o => o ≠ op) }

/-- Mutation `setPracticeMode`. -/
def PracticeState.setPracticeMode (st : PracticeState) (m : PracticeMode) :
    PracticeState :=
  { st with practiceMode := m }

/-- Mutation `setPracticeQuestionCount`. -/
def PracticeState.setPracticeQuestionCount (st : PracticeState) (n : Int) :
    PracticeState :=
  { st with practiceQuestionCount := n }

/-- Mutation `setPracticeTime`: sets `practiceTime` only; `practiceTimeLeft`
is not touched. -/
def PracticeState.setPracticeTime (st : PracticeState) (t : Int) :
    PracticeState :=
  { st with practiceTime := t }

/-- Mutation `setPracticeTimeLeft`. -/
def PracticeState.setPracticeTimeLeft (st : PracticeState) (t : Int) :
    PracticeState :=
  { st with practiceTimeLeft := t }

/-- Mutation `setPracticeCorrectQuestionCount`: the source ignores its payload
and performs `state.practiceCorrectQuestionCount += 1`. -/
def PracticeState.setPracticeCorrectQuestionCount (st : PracticeState)
    (_ : Int) : PracticeState :=
  { st with practiceCorrectQuestionCount := st.practiceCorrectQuestionCount + 1 }

/-- Mutation `setPracticeTimerId`. -/
def PracticeState.setPracticeTimerId (st : PracticeState) (id : Nat) :
    PracticeState :=
  { st with practiceTimerId := id }

/-- Mutation `resetPracticeSession`: zeroes streak, correct count, timer id
and time left; every other field is untouched. -/
def PracticeState.resetPracticeSession (st : PracticeState) : PracticeState :=
  { st with streak := 0,
            practiceCorrectQuestionCount := 0,
            practiceTimerId := 0,
            practiceTimeLeft := 0 }

/-! ### The system wrapper: store state plus the browser timer table -/

/-- The store state together with the browser-side interval table and a ghost
count of `finishPracticeSession` invocations.  `liveTimers` holds the handles
of intervals that have been armed by `setInterval` and not yet cleared;
`nextTimerId` is the next handle the browser would hand out (browsers start
at 1 and never reuse 0). -/
structure Sys where
  state : PracticeState
  liveTimers : List Nat
  nextTimerId : Nat
  finishCount : Nat
deriving DecidableEq, Repr

/-- JavaScript `clearInterval id`: deletes the interval with that handle if
one is live; passing a handle that is not live (such as the store's initial
0) is a no-op. -/
def clearInterval (timers : List Nat) (id : Nat) : List Nat :=
  timers.filter (fun t => t ≠ id)

/-! ### Actions (the `ActionTree` of practice.ts) -/

/-- Action `init`: commits `SET_PRACTICE_OPTIONS`; then, if the (unchanged)
mode is `TIME`, arms a fresh 1-second interval and commits its handle.  The
previously stored handle is neither cleared nor remembered. -/
def Sys.init (s : Sys) (options : PracticeOptions) : Sys :=
  let st := s.state.setPracticeOptions options
  if st.practiceMode = PracticeMode.TIME then
    { s with state := st.setPracticeTimerId s.nextTimerId,
             liveTimers := s.liveTimers ++ [s.nextTimerId],
             nextTimerId := s.nextTimerId + 1 }
  else
    { s with state := st }

/-- Action `finishPracticeSession`: `clearInterval(practiceTimerId)` then
commit `RESET_PRACTICE_SESSION`.  The ghost `finishCount` records the call. -/
def Sys.finishPracticeSession (s : Sys) : Sys :=
  { s with liveTimers := clearInterval s.liveTimers s.state.practiceTimerId,
           state := s.state.resetPracticeSession,
           finishCount := s.finishCount + 1 }

/-- Action `practiceTimeTick`: `newTimeLeft = practiceTimeLeft - 1`; if the
result `== 0` dispatch `finishPracticeSession`, otherwise commit the
decremented value. -/
def Sys.practiceTimeTick (s : Sys) : Sys :=
  let newTimeLeft := s.state.practiceTimeLeft - 1
  if newTimeLeft = 0 then
    s.finishPracticeSession
  else
    { s with state := s.state.setPracticeTimeLeft newTimeLeft }

/-- Action `newQuestion`: asks the (external, pure) challenge generator for a
fresh challenge from the current difficulty and operators and commits it. -/
def Sys.newQuestion (gen : Difficulty → List Operator → ChallengeModel)
    (s : Sys) : Sys :=
  { s with state := s.state.setQuestion (gen s.state.difficulty s.state.operators) }

/-- Action `setAnswer`. -/
def Sys.setAnswer (s : Sys) (a : String) : Sys :=
  { s with state := s.state.setAnswer a }

/-- Action `onCorrect`: bump correct count, bump streak, clear the answer,
dispatch `newQuestion`, show feedback. -/
def Sys.onCorrect (gen : Difficulty → List Operator → ChallengeModel)
    (s : Sys) : Sys :=
  let s1 := { s with state :=
    s.state.setPracticeCorrectQuestionCount (s.state.practiceCorrectQuestionCount + 1) }
  let s2 := { s1 with state := s1.state.setStreak (s1.state.streak + 1) }
  let s3 := { s2 with state := s2.state.setAnswer "" }
  let s4 := s3.newQuestion gen
  { s4 with state := s4.state.setShowingFeedback true }

/-- Action `onIncorrect`: zero the streak, clear the answer, show feedback;
the question and the correct count are untouched. -/
def Sys.onIncorrect (s : Sys) : Sys :=
  let s1 := { s with state := s.state.setStreak 0 }
  let s2 := { s1 with state := s1.state.setAnswer "" }
  { s2 with state := s2.state.setShowingFeedback true }

/-- Action `checkAnswer`: evaluates `answer == question.infix` through the
external mathjs `evaluate` oracle.  The source wraps the call in no
try/catch, so an evaluator failure is an uncaught exception escaping the
action: here, an `Except.error`.  On success it dispatches `onCorrect` or
`onIncorrect` according to the boolean verdict. -/
def Sys.checkAnswer (gen : Difficulty → List Operator → ChallengeModel)
    (verify : String → String → Except String Bool) (s : Sys) :
    Except String Sys :=
  match verify s.state.answer s.state.question.canonicalForm with
  | Except.ok true => Except.ok (s.onCorrect gen)
  | Except.ok false => Except.ok s.onIncorrect
  | Except.error e => Except.error e

/-- Action `setPracticeMode`. -/
def Sys.setPracticeMode (s : Sys) (m : PracticeMode) : Sys :=
  { s with state := s.state.setPracticeMode m }

/-- Action `setPracticeQuestionCount`. -/
def Sys.setPracticeQuestionCount (s : Sys) (n : Int) : Sys :=
  { s with state := s.state.setPracticeQuestionCount n }

/-- Action `setPracticeTime`. -/
def Sys.setPracticeTime (s : Sys) (t : Int) : Sys :=
  { s with state := s.state.setPracticeTime t }

/-- The operator-toggle mutations lifted to the system (committed directly by
the UI; they touch only `state.operators`). -/
def Sys.setOperatorEnabled (s : Sys) (op : Operator) : Sys :=
  { s with state := s.state.setOperatorEnabled op }

/-- See `Sys.setOperatorEnabled`. -/
def Sys.setOperatorDisabled (s : Sys) (op : Operator) : Sys :=
  { s with state := s.state.setOperatorDisabled op }

/-- A burst of answer submissions: for each answer text, `setAnswer` then
`checkAnswer`; an evaluator failure aborts the burst (the exception is
uncaught in the source). -/
def runSubmissions (gen : Difficulty → List Operator → ChallengeModel)
    (verify : String → String → Except String Bool) :
    List String → Sys → Except String Sys
  | [], s => Except.ok s
  | a :: as, s =>
    match (s.setAnswer a).checkAnswer gen verify with
    | Except.ok s' => runSubmissions gen verify as s'
    | Except.error e => Except.error e

/-! ### The module's initial state (the `state:` block of `PracticeModule`) -/

/-- The `{} as ChallengeModel` initial question. -/
def emptyChallenge : ChallengeModel :=
  { latex := "", canonicalForm := "" }

/-- The initial store state of `PracticeModule`. -/
def initialPracticeState : PracticeState :=
  { question := emptyChallenge,
    difficulty := Difficulty.Normal,
    operators := [Operator.Addition, Operator.Subtraction],
    challengeTypes := [],
    answer := "",
    streak := 0,
    showingFeedback := false,
    practiceMode := PracticeMode.TIME,
    practiceQuestionCount := 10,
    practiceTime := 10,
    practiceTimeLeft := 0,
    practiceCorrectQuestionCount := 0,
    practiceTimerId := 0 }

/-- The initial system: initial store state, no live interval, next browser
handle 1, no finishes yet. -/
def initialSys : Sys :=
  { state := initialPracticeState,
    liveTimers := [],
    nextTimerId := 1,
    finishCount := 0 }

/-- A concrete challenge generator for witnesses and counterexamples. -/
def gen0 : Difficulty → List Operator → ChallengeModel :=
  fun _ _ => { latex := "1 + 1", canonicalForm := "1 + 1" }

/-- A concrete options payload for witnesses and counterexamples. -/
def o0 : PracticeOptions :=
  { difficulty := Difficulty.Normal,
    operators := [Operator.Addition],
    challengeTypes := [] }

/-! ### Claim C1 -/

/-- Claim C1, as stated, is false: `init` never touches `streak` or
`practiceCorrectQuestionCount`, so re-running `init` after a correct answer
(no reset in between) completes with both counters still nonzero. -/
theorem C1_counterexample :
    ¬ (((initialSys.onCorrect gen0).init o0).state.streak = 0 ∧
       ((initialSys.onCorrect gen0).init o0).state.practiceCorrectQuestionCount = 0) := by
  decide

/-- Claim C1 (amended): after every `init` — fresh, just-reset, or a
mid-session re-configure — `practiceTimeLeft` equals `practiceTime`, and
`init` leaves `streak` and `practiceCorrectQuestionCount` unchanged; hence
both counters are 0 after configure exactly when they were already 0, as on
the initial or a just-reset session, but not after re-configuring
mid-session. -/
theorem C1_init_effects (s : Sys) (o : PracticeOptions) :
    (s.init o).state.practiceTimeLeft = (s.init o).state.practiceTime ∧
    (s.init o).state.streak = s.state.streak ∧
    (s.init o).state.practiceCorrectQuestionCount
      = s.state.practiceCorrectQuestionCount := by
  by_cases hm : s.state.practiceMode = PracticeMode.TIME <;>
    simp [Sys.init, hm, PracticeState.setPracticeOptions,
      PracticeState.setPracticeTimerId]

/-! ### Claim C2 -/

/-- Helper: one `onCorrect` bumps both counters by exactly one. -/
theorem onCorrect_counters (gen : Difficulty → List Operator → ChallengeModel)
    (s : Sys) :
    (s.onCorrect gen).state.streak = s.state.streak + 1 ∧
    (s.onCorrect gen).state.practiceCorrectQuestionCount
      = s.state.practiceCorrectQuestionCount + 1 :=
  ⟨rfl, rfl⟩

/-- Helper: N iterated `onCorrect` actions add N to both counters. -/
theorem onCorrect_iterate_counters (gen : Difficulty → List Operator → ChallengeModel)
    (s : Sys) (N : Nat) :
    ((Sys.onCorrect gen)^[N] s).state.streak = s.state.streak + N ∧
    ((Sys.onCorrect gen)^[N] s).state.practiceCorrectQuestionCount
      = s.state.practiceCorrectQuestionCount + N := by
  induction N generalizing s with
  | zero => simp
  | succ m ih =>
    rw [Function.iterate_succ_apply]
    have hrec := ih (s.onCorrect gen)
    have hone := onCorrect_counters gen s
    constructor
    · rw [hrec.1, hone.1]; push_cast; ring
    · rw [hrec.2, hone.2]; push_cast; ring

/-- Claim C2: from a freshly reset session (both counters 0), N consecutive
correct submissions leave `streak = N` and `correctCount = N`; a single
incorrect submission zeroes `streak`, leaves `correctCount` and the current
question untouched, and clears the answer; a correct submission clears the
answer and installs a freshly generated question. -/
theorem C2_streak_and_count (gen : Difficulty → List Operator → ChallengeModel)
    (s t : Sys) (N : Nat)
    (hs : s.state.streak = 0) (hc : s.state.practiceCorrectQuestionCount = 0) :
    ((Sys.onCorrect gen)^[N] s).state.streak = N ∧
    ((Sys.onCorrect gen)^[N] s).state.practiceCorrectQuestionCount = N ∧
    t.onIncorrect.state.streak = 0 ∧
    t.onIncorrect.state.practiceCorrectQuestionCount
      = t.state.practiceCorrectQuestionCount ∧
    t.onIncorrect.state.answer = "" ∧
    t.onIncorrect.state.question = t.state.question ∧
    (t.onCorrect gen).state.answer = "" ∧
    (t.onCorrect gen).state.question = gen t.state.difficulty t.state.operators := by
  have h := onCorrect_iterate_counters gen s N
  refine ⟨?_, ?_, rfl, rfl, rfl, rfl, rfl, rfl⟩
  · rw [h.1, hs]; simp
  · rw [h.2, hc]; simp

/-- Witness for `C2_streak_and_count` with three correct submissions from the
module's initial state. -/
theorem C2_streak_and_count_witness :
    initialSys.state.streak = 0 ∧
    initialSys.state.practiceCorrectQuestionCount = 0 ∧
    (((Sys.onCorrect gen0)^[3] initialSys).state.streak = 3 ∧
     ((Sys.onCorrect gen0)^[3] initialSys).state.practiceCorrectQuestionCount = 3 ∧
     initialSys.onIncorrect.state.streak = 0 ∧
     initialSys.onIncorrect.state.practiceCorrectQuestionCount
       = initialSys.state.practiceCorrectQuestionCount ∧
     initialSys.onIncorrect.state.answer = "" ∧
     initialSys.onIncorrect.state.question = initialSys.state.question ∧
     (initialSys.onCorrect gen0).state.answer = "" ∧
     (initialSys.onCorrect gen0).state.question
       = gen0 initialSys.state.difficulty initialSys.state.operators) :=
  ⟨by decide, by decide,
   C2_streak_and_count gen0 initialSys initialSys 3 (by decide) (by decide)⟩

/-! ### Claim C3 -/

/-- A ByTime session configured with `totalTimeSeconds = 0`. -/
def sTime0 : Sys := (initialSys.setPracticeTime 0).init o0

/-- Claim C3, as stated, is false at `totalTimeSeconds = 0`: the first tick
computes `0 - 1 = -1`, the `== 0` check fails, so the tick does not
terminate the session — it stores `-1` and the interval stays live. -/
theorem C3_counterexample :
    sTime0.state.practiceTimeLeft = 0 ∧
    sTime0.practiceTimeTick.finishCount = 0 ∧
    sTime0.practiceTimeTick.state.practiceTimeLeft = -1 ∧
    sTime0.practiceTimeTick.liveTimers = [1] := by
  decide

/-- Helper: once `practiceTimeLeft ≤ 0`, no number of ticks ever invokes
`finishPracticeSession`; the counter just keeps decreasing. -/
theorem tick_nonpos_iterate (s : Sys) (n : Nat)
    (h : s.state.practiceTimeLeft ≤ 0) :
    ((Sys.practiceTimeTick)^[n] s).finishCount = s.finishCount ∧
    ((Sys.practiceTimeTick)^[n] s).state.practiceTimeLeft
      = s.state.practiceTimeLeft - n := by
  induction n generalizing s with
  | zero => simp
  | succ m ih =>
    rw [Function.iterate_succ_apply]
    have hne : ¬ (s.state.practiceTimeLeft - 1 = 0) := by omega
    have hstep : s.practiceTimeTick
        = { s with state := s.state.setPracticeTimeLeft (s.state.practiceTimeLeft - 1) } := by
      simp [Sys.practiceTimeTick, hne]
    have hle : ({ s with
        state := s.state.setPracticeTimeLeft (s.state.practiceTimeLeft - 1) } : Sys).state.practiceTimeLeft ≤ 0 := by
      simp [PracticeState.setPracticeTimeLeft]; omega
    have hrec := ih _ hle
    rw [hstep]
    refine ⟨hrec.1, ?_⟩
    rw [hrec.2]
    simp [PracticeState.setPracticeTimeLeft]
    ring

/-- Claim C3 (amended): each tick decrements before the zero check and
invokes termination exactly when the decremented value is 0 — that is, when
`practiceTimeLeft` was 1.  A session configured with `totalTimeSeconds = 0`
starts its ticks at `practiceTimeLeft = 0 ≤ 0` and therefore never
self-terminates: every tick misses the `== 0` check and drives the counter
further negative. -/
theorem C3_tick_behaviour (s t1 t2 : Sys) (n : Nat)
    (h : s.state.practiceTimeLeft ≤ 0)
    (h1 : t1.state.practiceTimeLeft = 1)
    (h2 : t2.state.practiceTimeLeft ≠ 1) :
    t1.practiceTimeTick = t1.finishPracticeSession ∧
    t2.practiceTimeTick.finishCount = t2.finishCount ∧
    t2.practiceTimeTick.state.practiceTimeLeft = t2.state.practiceTimeLeft - 1 ∧
    ((Sys.practiceTimeTick)^[n] s).finishCount = s.finishCount ∧
    ((Sys.practiceTimeTick)^[n] s).state.practiceTimeLeft
      = s.state.practiceTimeLeft - n := by
  have hrec := tick_nonpos_iterate s n h
  have hne : ¬ (t2.state.practiceTimeLeft - 1 = 0) := by omega
  refine ⟨?_, ?_, ?_, hrec.1, hrec.2⟩
  · simp [Sys.practiceTimeTick, h1]
  · simp [Sys.practiceTimeTick, hne]
  · simp [Sys.practiceTimeTick, hne, PracticeState.setPracticeTimeLeft]

/-- Witness for `C3_tick_behaviour`: the zero-time session `sTime0` never
terminates under two ticks, while a one-second session's first tick does
terminate. -/
theorem C3_tick_behaviour_witness :
    sTime0.state.practiceTimeLeft ≤ 0 ∧
    ((initialSys.setPracticeTime 1).init o0).state.practiceTimeLeft = 1 ∧
    sTime0.state.practiceTimeLeft ≠ 1 ∧
    (((initialSys.setPracticeTime 1).init o0).practiceTimeTick
       = ((initialSys.setPracticeTime 1).init o0).finishPracticeSession ∧
     sTime0.practiceTimeTick.finishCount = sTime0.finishCount ∧
     sTime0.practiceTimeTick.state.practiceTimeLeft
       = sTime0.state.practiceTimeLeft - 1 ∧
     ((Sys.practiceTimeTick)^[2] sTime0).finishCount = sTime0.finishCount ∧
     ((Sys.practiceTimeTick)^[2] sTime0).state.practiceTimeLeft
       = sTime0.state.practiceTimeLeft - 2) :=
  ⟨by decide, by decide, by decide,
   C3_tick_behaviour sTime0 ((initialSys.setPracticeTime 1).init o0) sTime0 2
     (by decide) (by decide) (by decide)⟩

/-! ### Claim C5 -/

/-- A verifier that always fails, as mathjs does on a malformed
expression. -/
def verifyBad : String → String → Except String Bool :=
  fun _ _ => Except.error "SyntaxError"

/-- Claim C5, as stated, is false: `checkAnswer` wraps the evaluator in no
try/catch, so a verifier failure escapes the action as an error — it does
not resolve to the Incorrect transition. -/
theorem C5_counterexample :
    initialSys.checkAnswer gen0 verifyBad = Except.error "SyntaxError" ∧
    initialSys.checkAnswer gen0 verifyBad ≠ Except.ok initialSys.onIncorrect := by
  refine ⟨rfl, fun hAbs => ?_⟩
  have hAbs' : (Except.error "SyntaxError" : Except String Sys)
      = Except.ok initialSys.onIncorrect := hAbs
  exact Except.noConfusion hAbs'

/-- Claim C5 (amended): `checkAnswer` dispatches only on a successful
verdict — `true` to `onCorrect`, `false` to `onIncorrect` — while a
verifier failure propagates out of the action uncaught. -/
theorem C5_checkAnswer_dispatch (gen : Difficulty → List Operator → ChallengeModel)
    (verify : String → String → Except String Bool)
    (s t : Sys) (e : String) (b : Bool)
    (hs : verify s.state.answer s.state.question.canonicalForm = Except.error e)
    (ht : verify t.state.answer t.state.question.canonicalForm = Except.ok b) :
    s.checkAnswer gen verify = Except.error e ∧
    t.checkAnswer gen verify
      = Except.ok (if b then t.onCorrect gen else t.onIncorrect) := by
  constructor
  · unfold Sys.checkAnswer
    rw [hs]
  · unfold Sys.checkAnswer
    rw [ht]
    cases b <;> rfl

/-- A verifier that fails on the empty answer and answers `false`
otherwise. -/
def verifyEmptyFails : String → String → Except String Bool :=
  fun a _ => if a = "" then Except.error "SyntaxError" else Except.ok false

/-- Witness for `C5_checkAnswer_dispatch`: the initial state's empty answer
makes the verifier fail and the failure escapes; a nonempty answer gets the
`false` verdict and resolves to `onIncorrect`. -/
theorem C5_checkAnswer_dispatch_witness :
    verifyEmptyFails initialSys.state.answer
        initialSys.state.question.canonicalForm = Except.error "SyntaxError" ∧
    verifyEmptyFails (initialSys.setAnswer "2").state.answer
        (initialSys.setAnswer "2").state.question.canonicalForm
      = Except.ok false ∧
    (initialSys.checkAnswer gen0 verifyEmptyFails = Except.error "SyntaxError" ∧
     (initialSys.setAnswer "2").checkAnswer gen0 verifyEmptyFails
       = Except.ok (if false then (initialSys.setAnswer "2").onCorrect gen0
           else (initialSys.setAnswer "2").onIncorrect)) :=
  ⟨rfl, rfl,
   C5_checkAnswer_dispatch gen0 verifyEmptyFails initialSys
     (initialSys.setAnswer "2") "SyntaxError" false rfl rfl⟩

/-! ### Claim C4 -/

/-- Claim C4: the at-most-one-live-timer invariant is violated by the code.
Running `init` twice in ByTime mode (no `finishPracticeSession` in between)
leaves both intervals live, while `practiceTimerId` remembers only the second
handle — the first interval can no longer be cancelled. -/
theorem C4_timer_leak :
    ((initialSys.init o0).init o0).liveTimers = [1, 2] ∧
    ((initialSys.init o0).init o0).state.practiceTimerId = 2 := by
  decide

/-! ### Claim C6 -/

/-- A reachable state violating `timeLeft ≤ totalTime`: configure (ByTime,
total 10), then lower the total to 5 mid-session. -/
def c6Sys : Sys := (initialSys.init o0).setPracticeTime 5

/-- Claim C6, as stated, is false: `setPracticeTime` only rewrites
`practiceTime`, leaving `practiceTimeLeft` untouched, so lowering the total
mid-session leaves `practiceTimeLeft > practiceTime` — and this state is not
"immediately after (re)configuration". -/
theorem C6_counterexample :
    c6Sys.state.practiceTimeLeft = 10 ∧
    c6Sys.state.practiceTime = 5 ∧
    ¬ (c6Sys.state.practiceTimeLeft ≤ c6Sys.state.practiceTime) := by
  decide

/-- Claim C6 (amended): `init` re-establishes `timeLeft = totalTime`, and
every operation except `setPracticeTime` preserves `timeLeft ≤ totalTime`
(for a nonnegative configured total, which every reachable configuration
has); `setPracticeTime` preserves it only when the new total is at least the
current `timeLeft` — called mid-session with a smaller value it violates the
invariant. -/
theorem C6_time_invariant (gen : Difficulty → List Operator → ChallengeModel)
    (s : Sys) (o : PracticeOptions) (a : String) (m : PracticeMode)
    (n t : Int) (op : Operator)
    (h : s.state.practiceTimeLeft ≤ s.state.practiceTime)
    (h0 : 0 ≤ s.state.practiceTime)
    (hT : s.state.practiceTimeLeft ≤ t) :
    (s.init o).state.practiceTimeLeft = (s.init o).state.practiceTime ∧
    s.practiceTimeTick.state.practiceTimeLeft
      ≤ s.practiceTimeTick.state.practiceTime ∧
    s.finishPracticeSession.state.practiceTimeLeft
      ≤ s.finishPracticeSession.state.practiceTime ∧
    (s.onCorrect gen).state.practiceTimeLeft
      ≤ (s.onCorrect gen).state.practiceTime ∧
    s.onIncorrect.state.practiceTimeLeft
      ≤ s.onIncorrect.state.practiceTime ∧
    (s.setAnswer a).state.practiceTimeLeft
      ≤ (s.setAnswer a).state.practiceTime ∧
    (s.newQuestion gen).state.practiceTimeLeft
      ≤ (s.newQuestion gen).state.practiceTime ∧
    (s.setPracticeMode m).state.practiceTimeLeft
      ≤ (s.setPracticeMode m).state.practiceTime ∧
    (s.setPracticeQuestionCount n).state.practiceTimeLeft
      ≤ (s.setPracticeQuestionCount n).state.practiceTime ∧
    (s.setOperatorEnabled op).state.practiceTimeLeft
      ≤ (s.setOperatorEnabled op).state.practiceTime ∧
    (s.setOperatorDisabled op).state.practiceTimeLeft
      ≤ (s.setOperatorDisabled op).state.practiceTime ∧
    (s.setPracticeTime t).state.practiceTimeLeft
      ≤ (s.setPracticeTime t).state.practiceTime := by
  refine ⟨?_, ?_, ?_, ?_, ?_, ?_, ?_, ?_, ?_, ?_, ?_, ?_⟩
  · by_cases hmode : s.state.practiceMode = PracticeMode.TIME <;>
      simp [Sys.init, hmode, PracticeState.setPracticeOptions,
        PracticeState.setPracticeTimerId]
  · by_cases hd : s.state.practiceTimeLeft - 1 = 0 <;>
      simp [Sys.practiceTimeTick, hd, Sys.finishPracticeSession,
        PracticeState.resetPracticeSession, PracticeState.setPracticeTimeLeft] <;>
      omega
  · simp [Sys.finishPracticeSession, PracticeState.resetPracticeSession]
    omega
  · simpa [Sys.onCorrect, Sys.newQuestion, PracticeState.setQuestion,
      PracticeState.setPracticeCorrectQuestionCount, PracticeState.setStreak,
      PracticeState.setAnswer, PracticeState.setShowingFeedback] using h
  · simpa [Sys.onIncorrect, PracticeState.setStreak, PracticeState.setAnswer,
      PracticeState.setShowingFeedback] using h
  · simpa [Sys.setAnswer, PracticeState.setAnswer] using h
  · simpa [Sys.newQuestion, PracticeState.setQuestion] using h
  · simpa [Sys.setPracticeMode, PracticeState.setPracticeMode] using h
  · simpa [Sys.setPracticeQuestionCount,
      PracticeState.setPracticeQuestionCount] using h
  · simpa [Sys.setOperatorEnabled, PracticeState.setOperatorEnabled] using h
  · simpa [Sys.setOperatorDisabled, PracticeState.setOperatorDisabled] using h
  · simpa [Sys.setPracticeTime, PracticeState.setPracticeTime] using hT

/-- Witness for `C6_time_invariant` at the initial state with a raised
total. -/
theorem C6_time_invariant_witness :
    initialSys.state.practiceTimeLeft ≤ initialSys.state.practiceTime ∧
    0 ≤ initialSys.state.practiceTime ∧
    initialSys.state.practiceTimeLeft ≤ 12 ∧
    ((initialSys.init o0).state.practiceTimeLeft
        = (initialSys.init o0).state.practiceTime ∧
     initialSys.practiceTimeTick.state.practiceTimeLeft
       ≤ initialSys.practiceTimeTick.state.practiceTime ∧
     initialSys.finishPracticeSession.state.practiceTimeLeft
       ≤ initialSys.finishPracticeSession.state.practiceTime ∧
     (initialSys.onCorrect gen0).state.practiceTimeLeft
       ≤ (initialSys.onCorrect gen0).state.practiceTime ∧
     initialSys.onIncorrect.state.practiceTimeLeft
       ≤ initialSys.onIncorrect.state.practiceTime ∧
     (initialSys.setAnswer "x").state.practiceTimeLeft
       ≤ (initialSys.setAnswer "x").state.practiceTime ∧
     (initialSys.newQuestion gen0).state.practiceTimeLeft
       ≤ (initialSys.newQuestion gen0).state.practiceTime ∧
     (initialSys.setPracticeMode PracticeMode.QUESTIONS).state.practiceTimeLeft
       ≤ (initialSys.setPracticeMode PracticeMode.QUESTIONS).state.practiceTime ∧
     (initialSys.setPracticeQuestionCount 5).state.practiceTimeLeft
       ≤ (initialSys.setPracticeQuestionCount 5).state.practiceTime ∧
     (initialSys.setOperatorEnabled Operator.Addition).state.practiceTimeLeft
       ≤ (initialSys.setOperatorEnabled Operator.Addition).state.practiceTime ∧
     (initialSys.setOperatorDisabled Operator.Addition).state.practiceTimeLeft
       ≤ (initialSys.setOperatorDisabled Operator.Addition).state.practiceTime ∧
     (initialSys.setPracticeTime 12).state.practiceTimeLeft
       ≤ (initialSys.setPracticeTime 12).state.practiceTime) :=
  ⟨by decide, by decide, by decide,
   C6_time_invariant gen0 initialSys o0 "x" PracticeMode.QUESTIONS 5 12
     Operator.Addition (by decide) (by decide) (by decide)⟩

/-! ### Claim C7 -/

/-- Claim C7: `finishPracticeSession` is idempotent on the store state, the
live-interval table and the handle allocator.  The hypothesis rules out a
live interval with handle 0: browsers never allocate 0 (the model's
allocator starts at 1), so every reachable state satisfies it.  The second
call clears handle 0 — a no-op — and re-zeroes already-zeroed fields. -/
theorem C7_finish_idempotent (s : Sys) (h : 0 ∉ s.liveTimers) :
    s.finishPracticeSession.finishPracticeSession.state
      = s.finishPracticeSession.state ∧
    s.finishPracticeSession.finishPracticeSession.liveTimers
      = s.finishPracticeSession.liveTimers ∧
    s.finishPracticeSession.finishPracticeSession.nextTimerId
      = s.finishPracticeSession.nextTimerId := by
  refine ⟨rfl, ?_, rfl⟩
  show clearInterval (clearInterval s.liveTimers s.state.practiceTimerId) 0
      = clearInterval s.liveTimers s.state.practiceTimerId
  unfold clearInterval
  apply List.filter_eq_self.mpr
  intro a ha
  have haL : a ∈ s.liveTimers := List.mem_of_mem_filter ha
  have hne : a ≠ 0 := fun h0 => h (h0 ▸ haL)
  simpa using hne

/-- Witness for `C7_finish_idempotent` on a session with one live timer. -/
theorem C7_finish_idempotent_witness :
    0 ∉ (initialSys.init o0).liveTimers ∧
    ((initialSys.init o0).finishPracticeSession.finishPracticeSession.state
       = (initialSys.init o0).finishPracticeSession.state ∧
     (initialSys.init o0).finishPracticeSession.finishPracticeSession.liveTimers
       = (initialSys.init o0).finishPracticeSession.liveTimers ∧
     (initialSys.init o0).finishPracticeSession.finishPracticeSession.nextTimerId
       = (initialSys.init o0).finishPracticeSession.nextTimerId) :=
  ⟨by decide, C7_finish_idempotent (initialSys.init o0) (by decide)⟩

/-! ### Claim C9 -/

/-- Helper: a successful `checkAnswer` never touches the ghost finish count
or the live-interval table (it only dispatches `onCorrect`/`onIncorrect`). -/
theorem checkAnswer_ok_preserves (gen : Difficulty → List Operator → ChallengeModel)
    (verify : String → String → Except String Bool) (s s1 : Sys)
    (h : s.checkAnswer gen verify = Except.ok s1) :
    s1.finishCount = s.finishCount ∧ s1.liveTimers = s.liveTimers := by
  unfold Sys.checkAnswer at h
  cases hv : verify s.state.answer s.state.question.canonicalForm with
  | ok b =>
    rw [hv] at h
    cases b
    · injection h with h
      subst h
      exact ⟨rfl, rfl⟩
    · injection h with h
      subst h
      exact ⟨rfl, rfl⟩
  | error e =>
    rw [hv] at h
    exact Except.noConfusion h

/-- Helper: a burst of submissions that completes without an evaluator
exception leaves the finish count and the live-interval table unchanged. -/
theorem runSubmissions_preserves (gen : Difficulty → List Operator → ChallengeModel)
    (verify : String → String → Except String Bool)
    (as : List String) (s s' : Sys)
    (hrun : runSubmissions gen verify as s = Except.ok s') :
    s'.finishCount = s.finishCount ∧ s'.liveTimers = s.liveTimers := by
  induction as generalizing s with
  | nil =>
    simp only [runSubmissions] at hrun
    injection hrun with hrun
    subst hrun
    exact ⟨rfl, rfl⟩
  | cons a as ih =>
    simp only [runSubmissions] at hrun
    cases hca : (s.setAnswer a).checkAnswer gen verify with
    | ok s1 =>
      rw [hca] at hrun
      have h1 := checkAnswer_ok_preserves gen verify (s.setAnswer a) s1 hca
      have h2 := ih s1 hrun
      exact ⟨h2.1.trans h1.1, h2.2.trans h1.2⟩
    | error e =>
      rw [hca] at hrun
      exact Except.noConfusion hrun

/-- Claim C9: in ByQuestionCount mode, `init` arms no interval and commits
no timer handle; and no burst of answer submissions, however long, ever
invokes `finishPracticeSession` or touches the live-interval table — the
question-count cutoff is the caller's job. -/
theorem C9_no_self_termination (gen : Difficulty → List Operator → ChallengeModel)
    (verify : String → String → Except String Bool)
    (u s s' : Sys) (o : PracticeOptions) (as : List String)
    (hm : u.state.practiceMode = PracticeMode.QUESTIONS)
    (hrun : runSubmissions gen verify as s = Except.ok s') :
    (u.init o).liveTimers = u.liveTimers ∧
    (u.init o).nextTimerId = u.nextTimerId ∧
    (u.init o).state.practiceTimerId = u.state.practiceTimerId ∧
    s'.finishCount = s.finishCount ∧
    s'.liveTimers = s.liveTimers := by
  have hmode : ¬ (u.state.practiceMode = PracticeMode.TIME) := by
    rw [hm]; simp
  have hrun' := runSubmissions_preserves gen verify as s s' hrun
  refine ⟨?_, ?_, ?_, hrun'.1, hrun'.2⟩ <;>
    simp [Sys.init, hmode, PracticeState.setPracticeOptions]

/-- An always-correct verifier for the C9 witness. -/
def verifyTrue : String → String → Except String Bool :=
  fun _ _ => Except.ok true

/-- Witness for `C9_no_self_termination`: a ByQuestionCount session plus a
one-submission burst from the initial state. -/
theorem C9_no_self_termination_witness :
    (initialSys.setPracticeMode PracticeMode.QUESTIONS).state.practiceMode
      = PracticeMode.QUESTIONS ∧
    runSubmissions gen0 verifyTrue ["7"] initialSys
      = Except.ok ((initialSys.setAnswer "7").onCorrect gen0) ∧
    (((initialSys.setPracticeMode PracticeMode.QUESTIONS).init o0).liveTimers
       = (initialSys.setPracticeMode PracticeMode.QUESTIONS).liveTimers ∧
     ((initialSys.setPracticeMode PracticeMode.QUESTIONS).init o0).nextTimerId
       = (initialSys.setPracticeMode PracticeMode.QUESTIONS).nextTimerId ∧
     ((initialSys.setPracticeMode PracticeMode.QUESTIONS).init o0).state.practiceTimerId
       = (initialSys.setPracticeMode PracticeMode.QUESTIONS).state.practiceTimerId ∧
     ((initialSys.setAnswer "7").onCorrect gen0).finishCount
       = initialSys.finishCount ∧
     ((initialSys.setAnswer "7").onCorrect gen0).liveTimers
       = initialSys.liveTimers) :=
  ⟨rfl, rfl,
   C9_no_self_termination gen0 verifyTrue
     (initialSys.setPracticeMode PracticeMode.QUESTIONS) initialSys
     ((initialSys.setAnswer "7").onCorrect gen0) o0 ["7"] rfl rfl⟩

/-! ### Claim C8 -/

/-- Claim C8: `finishPracticeSession` zeroes `streak`,
`practiceCorrectQuestionCount`, `practiceTimerId` (0 is the "no timer"
value) and `practiceTimeLeft`, and leaves every configuration field —
difficulty, operators, challengeTypes, practiceMode, practiceQuestionCount,
practiceTime — unchanged. -/
theorem C8_finish_frame (s : Sys) :
    s.finishPracticeSession.state.streak = 0 ∧
    s.finishPracticeSession.state.practiceCorrectQuestionCount = 0 ∧
    s.finishPracticeSession.state.practiceTimerId = 0 ∧
    s.finishPracticeSession.state.practiceTimeLeft = 0 ∧
    s.finishPracticeSession.state.difficulty = s.state.difficulty ∧
    s.finishPracticeSession.state.operators = s.state.operators ∧
    s.finishPracticeSession.state.challengeTypes = s.state.challengeTypes ∧
    s.finishPracticeSession.state.practiceMode = s.state.practiceMode ∧
    s.finishPracticeSession.state.practiceQuestionCount = s.state.practiceQuestionCount ∧
    s.finishPracticeSession.state.practiceTime = s.state.practiceTime := by
  simp [Sys.finishPracticeSession, PracticeState.resetPracticeSession]

/-! ### Claim C10 -/

/-- Claim C10: `operators` does not behave as a set.  Enabling an operator
that is already present appends a second occurrence (the count strictly
rises, reaching at least 2), and disabling removes every occurrence at
once. -/
theorem C10_operators_not_a_set (st : PracticeState) (op : Operator)
    (h : op ∈ st.operators) :
    (st.setOperatorEnabled op).operators.count op = st.operators.count op + 1 ∧
    2 ≤ (st.setOperatorEnabled op).operators.count op ∧
    op ∉ ((st.setOperatorEnabled op).setOperatorDisabled op).operators ∧
    op ∉ (st.setOperatorDisabled op).operators := by
  have hcount : (st.setOperatorEnabled op).operators.count op
      = st.operators.count op + 1 := by
    simp [PracticeState.setOperatorEnabled]
  have hpos : 0 < st.operators.count op := List.count_pos_iff.mpr h
  refine ⟨hcount, by omega, ?_, ?_⟩
  · simp [PracticeState.setOperatorDisabled]
  · simp [PracticeState.setOperatorDisabled]

/-- Witness for `C10_operators_not_a_set`: `Addition` is already in the
default operator list. -/
theorem C10_operators_not_a_set_witness :
    Operator.Addition ∈ initialPracticeState.operators ∧
    ((initialPracticeState.setOperatorEnabled Operator.Addition).operators.count
        Operator.Addition
      = initialPracticeState.operators.count Operator.Addition + 1 ∧
     2 ≤ (initialPracticeState.setOperatorEnabled Operator.Addition).operators.count
        Operator.Addition ∧
     Operator.Addition ∉
       ((initialPracticeState.setOperatorEnabled Operator.Addition).setOperatorDisabled
         Operator.Addition).operators ∧
     Operator.Addition ∉
       (initialPracticeState.setOperatorDisabled Operator.Addition).operators) :=
  ⟨by decide, C10_operators_not_a_set initialPracticeState Operator.Addition (by decide)⟩

end MaterialMath
